import Mathlib

/-
Verification of the S3MPython constrained data-type model (S3M_Python repository).

The definitions below are a shallow embedding of the Python source:
  - property setters become pure functions from an explicit state record to a
    step result; a Python `raise` becomes an error result that also carries the
    object state at the raise point (mutations performed before the raise
    persist, exactly as in Python);
  - Python `None` becomes `Option.none`; Python ints become `Int`;
  - Python exceptions become constructors of `PyErr` carrying the message.

Each embedded definition names the source file and line range it was
translated from.
-/

namespace S3M

/-- Python exception kinds raised by the library, together with the message
string passed to the exception constructor. `PublicationError` and
`ValidationError` are the project-specific classes from `errors.py`. -/
inductive PyErr where
  | typeError (msg : String)
  | valueError (msg : String)
  | publicationError (msg : String)
  | validationError (msg : String)
  deriving Repr, DecidableEq

/-- Result of a Python property setter on an object of state type `σ`:
either the mutated state, or a raised exception paired with the state the
object holds at the moment of the raise (Python mutations made before the
raise persist). -/
inductive StepRes (σ : Type) where
  | ok (s : σ)
  | err (e : PyErr) (s : σ)
  deriving Repr, DecidableEq

/-- Whether a setter invocation succeeded. -/
def StepRes.isOk {σ : Type} : StepRes σ → Bool
  | .ok _ => true
  | .err _ _ => false

/-- The state after the invocation, whether it succeeded or raised. -/
def StepRes.state {σ : Type} : StepRes σ → σ
  | .ok s => s
  | .err _ s => s

/- ### Cardinality subsystem (claim C4)

`XdAnyType.cardinality` setter: xdt.py lines 131-148.
`valid_cardinality`: utils.py lines 93-130. -/

/-- A cardinality occurrence value after the setter has replaced Python
`None` by `Decimal(\x27INF\x27)` (xdt.py lines 135-136): either a finite
integer or the infinite sentinel meaning XML Schema `unbounded`. -/
inductive CardBound where
  | fin (n : Int)
  | inf
  deriving Repr, DecidableEq

/-- Comparison `a <= b` on occurrence values, matching Python comparison of
ints and `Decimal(\x27Infinity\x27)` (infinity compares greater than every
int and equal to itself). -/
def CardBound.ble : CardBound → CardBound → Bool
  | _, .inf => true
  | .inf, .fin _ => false
  | .fin a, .fin b => a ≤ b

/-- Comparison `a < b` on occurrence values. -/
def CardBound.blt (a b : CardBound) : Bool := !(CardBound.ble b a)

/-- The conversion applied by the cardinality setter to each member of the
incoming `[min, max]` list: Python `None` becomes the infinite sentinel,
integers pass through (xdt.py lines 135-136). -/
def toBound : Option Int → CardBound
  | none => .inf
  | some n => .fin n

/-- One row of the static allow-table in `valid_cardinality`:
`((minLower, minUpper), (maxLower, maxUpper))`.  In the source every
`minOccurs` sub-range is a pair of ints, and every `maxOccurs` sub-range has
an int lower bound; only the `maxOccurs` upper bound is ever
`Decimal(\x27Infinity\x27)` (for the key `referencerange`). -/
structure CardRule where
  minLower : Int
  minUpper : Int
  maxLower : Int
  maxUpper : CardBound
  deriving Repr, DecidableEq

/-- The static allow-table `c` of `valid_cardinality` (utils.py lines
106-119).  Every key maps to `((0, 1), (0, 1))` except `referencerange`,
which maps to `((0, 1), (0, Decimal(\x27Infinity\x27)))`.  The key list below is
transcribed in source order; `location` appears twice in the source dict
literal with the same value, which Python collapses to one entry. -/
def cardRules (key : String) : Option CardRule :=
  if key = "referencerange" then some ⟨0, 1, 0, .inf⟩
  else if key ∈ ["act", "ev", "vtb", "vte", "tr",
                 "modified", "location", "relation_uri", "value",
                 "units", "size", "encoding", "language",
                 "formalism", "media_type", "compression_type", "link",
                 "hash_result", "hash_function", "alt_txt",
                 "normal_status", "magnitude_status", "error", "accuracy",
                 "numerator", "denominator", "numerator_units",
                 "denominator_units", "ratio_units", "date", "time",
                 "datetime", "day", "month", "year", "year_month",
                 "month_day", "duration", "view", "proof",
                 "reason", "committer", "committed", "system_user",
                 "performer", "function", "mode",
                 "start", "end", "party_name", "party_ref",
                 "party_details"] then some ⟨0, 1, 0, .fin 1⟩
  else none

/-- A component\x27s stored `_cardinality` dictionary: field name to the
`[min, max]` pair.  (In stored pairs the infinite sentinel also stands for
the Python `None` kept in some construction-time defaults, e.g.
`\x27ev\x27: [0, None]`; nothing the verified claims observe distinguishes
the two.) -/
abbrev CardMap : Type := List (String × (CardBound × CardBound))

/-- Python dict item assignment `d[k] = v`: replace the entry if the key is
present, append it otherwise. -/
def dictSet (m : CardMap) (k : String) (v : CardBound × CardBound) : CardMap :=
  if m.any (fun p => p.1 = k) then
    m.map (fun p => if p.1 = k then (k, v) else p)
  else m ++ [(k, v)]

/-- Python dict lookup `d.get(k)`. -/
def dictGet (m : CardMap) (k : String) : Option (CardBound × CardBound) :=
  (m.find? (fun p => p.1 = k)).map (fun p => p.2)

/-- `valid_cardinality(self, v)` from utils.py lines 93-130, after the
setter\x27s `None` to infinity conversion.  Returns `True` or raises
`ValueError`; the range tests are `v[1][0] < lower or v[1][0] > upper` on
the `minOccurs` sub-range and the same on the `maxOccurs` sub-range. -/
def valid_cardinality (key : String) (v0 v1 : CardBound) : Except PyErr Bool :=
  match cardRules key with
  | none =>
      .error (.valueError ("The requested setting; " ++ key ++
        " is not a valid cardinality setting value."))
  | some r =>
      if CardBound.blt v0 (.fin r.minLower) || CardBound.blt (.fin r.minUpper) v0 then
        .error (.valueError "The minimum occurences value is out of range.")
      else if CardBound.blt v1 (.fin r.maxLower) || CardBound.blt r.maxUpper v1 then
        .error (.valueError "The maximum occurences value is out of range.")
      else .ok true

/-- The `min > max` pre-check of the cardinality setter (xdt.py line 139):
it fires only when both members of the incoming list are still Python ints,
i.e. when neither was `None`. -/
def minGtMax : Option Int → Option Int → Bool
  | some a, some b => a > b
  | _, _ => false

/-- `XdAnyType.cardinality` setter (xdt.py lines 131-148) for a well-shaped
argument `(key, [lo, hi])` whose list members are Python ints or `None`
(the domain the source itself documents in its `TypeError` message: "The
cardinality values must be integers or None.").  On success the dictionary
entry for `key` is replaced by the converted pair; every raise happens
before `self._cardinality` is touched, so the stored map is unchanged on
failure. -/
def set_cardinality (published : Bool) (m : CardMap) (key : String)
    (lo hi : Option Int) : StepRes CardMap :=
  if !published then
    let v0 := toBound lo
    let v1 := toBound hi
    if minGtMax lo hi then
      .err (.valueError
        "The minimum value must be less than or equal to the maximum value.") m
    else
      match valid_cardinality key v0 v1 with
      | .error e => .err e m
      | .ok _ => .ok (dictSet m key (v0, v1))
  else
    .err (.publicationError "The model has been published and cannot be edited.") m

/-- Claim-side predicate, written from the specification\x27s words (spec.md
section 8 item 4): the pair `[lo, hi]` is accepted exactly when the field is
a key of the static allow-table, `lo` lies within the permitted `minOccurs`
sub-range, `hi` lies within the permitted `maxOccurs` sub-range, and
`lo <= hi` (`None` standing for unbounded). -/
def specCardinalityAllowed (key : String) (lo hi : Option Int) : Prop :=
  ∃ r, cardRules key = some r ∧
    CardBound.ble (.fin r.minLower) (toBound lo) = true ∧
    CardBound.ble (toBound lo) (.fin r.minUpper) = true ∧
    CardBound.ble (.fin r.maxLower) (toBound hi) = true ∧
    CardBound.ble (toBound hi) r.maxUpper = true ∧
    CardBound.ble (toBound lo) (toBound hi) = true

/- ### Python string primitives used by the export code -/

/-- A run of `n` spaces. -/
def spacesN (n : Nat) : String := String.mk (List.replicate n ' ')

/-- Python `str.rjust(w)` with the default space fill character. -/
def pyRjust (s : String) (w : Nat) : String :=
  if s.length ≥ w then s else spacesN (w - s.length) ++ s

/-- Python `str.strip()` (whitespace trim on both ends). -/
def pyStrip (s : String) : String := s.trim

/-- Python `str(bool)`. -/
def pyBoolStr (b : Bool) : String := if b then "True" else "False"

/-- One character of `xml.sax.saxutils.escape`. -/
def pyEscapeChar (c : Char) : String :=
  if c = '&' then "&amp;"
  else if c = '<' then "&lt;"
  else if c = '>' then "&gt;"
  else String.singleton c

/-- `xml.sax.saxutils.escape` with the default entity table. -/
def pyEscape (s : String) : String := String.join (s.data.map pyEscapeChar)

/-- Uppercase hexadecimal digit, as used by `urllib.parse.quote`. -/
def hexDigit (n : Nat) : Char :=
  if n < 10 then Char.ofNat (48 + n) else Char.ofNat (55 + n)

/-- One character of `urllib.parse.quote` with the default `safe=\x27/\x27`:
ASCII alphanumerics and `_.-~/` pass through, everything else is
percent-encoded (byte encoding of characters above U+007F is outside this
embedding; all strings fed to it here are ASCII). -/
def pyQuoteChar (c : Char) : String :=
  if c.isAlphanum || c = '_' || c = '.' || c = '-' || c = '~' || c = '/' then
    String.singleton c
  else
    "%" ++ String.mk [hexDigit (c.toNat / 16 % 16), hexDigit (c.toNat % 16)]

/-- `urllib.parse.quote` with the default `safe=\x27/\x27`. -/
def pyQuote (s : String) : String := String.join (s.data.map pyQuoteChar)

/- ### XdAnyType base state and publish lifecycle (claims C2, C3)

`XdAnyType.__init__`: xdt.py lines 62-93.  `published` setter: lines
180-188.  `docs` setter: lines 212-220.  `validate`: lines 426-435.
`getModel`: lines 437-493.  `ItemType.published` setter: struct.py lines
49-57. -/

/-- State of an `XdAnyType` component (xdt.py lines 62-93).  `xdtype` holds
`self._xdtype`, which for every concrete leaf class equals the Python class
name used by `__str__`, `validate` messages and the substitutionGroup
computation in `getModel` (each concrete `__init__` assigns its own class
name to `_xdtype`).  Instance fields that the verified claims never observe
in detail (`ev` list, datetimes, location) are kept as optional strings. -/
structure XdState where
  mcuid : String
  acuid : String
  label : String
  published : Bool
  adapter : Bool
  docs : String
  definition_url : String
  pred_obj_list : List (String × String)
  xdtype : String
  cardinality : CardMap
  act : Option String
  vtb : Option String
  vte : Option String
  tr : Option String
  modified : Option String
  latitude : Option String
  longitude : Option String
  deriving Repr, DecidableEq

/-- The construction-time default `_cardinality` dictionary (xdt.py lines
87-88); `\x27ev\x27` defaults to `[0, None]`, i.e. unbounded. -/
def defaultCardinality : CardMap :=
  [("act", (.fin 0, .fin 1)), ("ev", (.fin 0, .inf)), ("vtb", (.fin 0, .fin 1)),
   ("vte", (.fin 0, .fin 1)), ("tr", (.fin 0, .fin 1)),
   ("modified", (.fin 0, .fin 1)), ("location", (.fin 0, .fin 1))]

/-- `XdAnyType.published` setter (xdt.py lines 180-188): flips the flag only
while still unpublished, otherwise raises; the raise happens before any
mutation.  The `isinstance(v, bool)` guard is discharged by the embedding\x27s
typing.  Note that it performs no validation of the component. -/
def set_published (s : XdState) (v : Bool) : StepRes XdState :=
  if s.published = false then .ok {s with published := v}
  else .err (.valueError "the published value cannot be changed once published.") s

/-- `ItemType.published` setter (struct.py lines 49-57): identical logic on
the single `_published` field of the structural items, which is the only
field the setter reads or writes. -/
def item_set_published (published : Bool) (v : Bool) : StepRes Bool :=
  if published = false then .ok v
  else .err (.valueError "the published value cannot be changed once published.") published

/-- `XdAnyType.docs` setter (xdt.py lines 212-220); a definitional field,
gated on not-published. -/
def set_docs (s : XdState) (v : String) : StepRes XdState :=
  if !s.published then .ok {s with docs := v}
  else .err (.publicationError "The model has been published and cannot be edited.") s

/-- `XdAnyType.act` setter (xdt.py lines 279-290); an instance field, gated
on published, and the value must belong to the loaded access control
system list `ACS` (passed explicitly here, since its file load is outside
the model). -/
def set_act (acs : List String) (s : XdState) (v : String) : StepRes XdState :=
  if s.published then
    if v ∈ acs then .ok {s with act := some v}
    else .err (.valueError "The act value must be in the Access Control System list.") s
  else .err (.publicationError "The model has not been published.") s

/-- Modelled from the spec: the external `validator_collection.checkers.is_url`
predicate used on `definition_url` (the `validator_collection` library is
not part of this repository).  Approximated as a nonempty scheme, the
literal `://`, and a nonempty remainder; the spec only demands "a
syntactically valid, non-IP-address URL" and the verified claims only need
that the empty string is not a URL while ordinary `https` URLs are. -/
def urlShape : Bool → List Char → Bool
  | hasScheme, ':' :: '/' :: '/' :: rest => hasScheme && !rest.isEmpty
  | _, _ :: rest => urlShape true rest
  | _, [] => false

/-- See `urlShape`: a nonempty scheme, `://`, and a nonempty remainder. -/
def checkers_is_url (s : String) : Bool := urlShape false s.data

/-- `XdAnyType.validate` (xdt.py lines 426-435): raises `ValidationError`
when `definition_url` is not a URL or the label is shorter than 2
characters, and returns `True` otherwise. -/
def xd_validate (s : XdState) : Except PyErr Bool :=
  if !(checkers_is_url s.definition_url) then
    .error (.validationError (s.xdtype ++ " : " ++ s.label ++
      " - failed validation: definition_url is invalid\n" ++ s.definition_url))
  else if s.label.length < 2 then
    .error (.validationError (s.xdtype ++ " : " ++ s.label ++
      " - failed validation: label is too short or missing\n" ++ s.label))
  else .ok true

/-- `XdAnyType.__str__` (xdt.py lines 420-424): validates first (a failed
validation raises out of `__str__`), then renders the class name, label,
model id and published flag. -/
def xd_str (s : XdState) : Except PyErr String :=
  match xd_validate s with
  | .error e => .error e
  | .ok _ => .ok (s.xdtype ++ " : " ++ s.label ++ ", ID: " ++ s.mcuid ++
      " Published: " ++ pyBoolStr s.published)

/-- The minOccurs rendering `str(self.cardinality[k][0])` used by
`getModel`; the keys read there are all present from construction. -/
def cardMinStr (m : CardMap) (k : String) : String :=
  match dictGet m k with
  | some (.fin n, _) => toString n
  | some (.inf, _) => "Infinity"
  | none => "KeyError"

/-- The XML Schema stub text assembled by `XdAnyType.getModel` (xdt.py
lines 446-491), translated line by line; `indent = 2` and
`padding = (\x27\x27).rjust(indent)`. -/
def xd_getModel_stub (s : XdState) : String :=
  let indent : Nat := 2
  let padding : String := pyRjust "" indent
  (if s.adapter then
    pyRjust padding indent ++ "<xs:element name=\"ms-" ++ s.mcuid ++
      "\" substitutionGroup=\"s3m:XdAdapter-value\" type=\"s3m:mc-" ++ s.mcuid ++ "\"/>\n"
  else
    pyRjust padding indent ++ "<xs:element name=\"ms-" ++ s.mcuid ++
      "\" substitutionGroup=\"s3m:" ++ s.xdtype ++ "\" type=\"s3m:mc-" ++ s.mcuid ++ "\"/>\n")
  ++ pyRjust padding indent ++ "<xs:complexType name=\"mc-" ++ s.mcuid ++ "\">\n"
  ++ pyRjust padding (indent + 2) ++ "<xs:annotation>\n"
  ++ pyRjust padding (indent + 4) ++ "<xs:documentation>\n"
  ++ pyRjust padding (indent + 6) ++ pyEscape (pyStrip s.docs) ++ "\n"
  ++ pyRjust padding (indent + 4) ++ "</xs:documentation>\n"
  ++ pyRjust padding (indent + 4) ++ "<xs:appinfo>\n"
  ++ pyRjust padding (indent + 6) ++ "<rdfs:Class rdf:about=\"mc-" ++ s.mcuid ++ "\">\n"
  ++ pyRjust padding (indent + 8) ++
    "<rdfs:subClassOf rdf:resource=\"https://www.s3model.com/ns/s3m/s3model_3_1_0.xsd#" ++
    s.xdtype ++ "\"/>\n"
  ++ pyRjust padding (indent + 8) ++
    "<rdfs:subClassOf rdf:resource=\"https://www.s3model.com/ns/s3m/s3model/RMC\"/>\n"
  ++ pyRjust padding (indent + 8) ++ "<rdfs:isDefinedBy rdf:resource=\"" ++
    pyQuote (pyStrip s.definition_url) ++ "\"/>\n"
  ++ String.join (s.pred_obj_list.map (fun po =>
       pyRjust padding (indent + 8) ++ "<" ++ pyStrip po.1 ++
         " rdf:resource=\"" ++ pyQuote (pyStrip po.2) ++ "\"/>\n"))
  ++ pyRjust padding (indent + 6) ++ "</rdfs:Class>\n"
  ++ pyRjust padding (indent + 4) ++ "</xs:appinfo>\n"
  ++ pyRjust padding (indent + 2) ++ "</xs:annotation>\n"
  ++ pyRjust padding (indent + 2) ++ "<xs:complexContent>\n"
  ++ pyRjust padding (indent + 4) ++ "<xs:restriction base=\"s3m:" ++ s.xdtype ++ "\">\n"
  ++ pyRjust padding (indent + 6) ++ "<xs:sequence>\n"
  ++ pyRjust padding (indent + 8) ++
    "<xs:element maxOccurs=\"1\" minOccurs=\"1\" name=\"label\" type=\"xs:string\" fixed=\"" ++
    pyStrip s.label ++ "\"/>\n"
  ++ pyRjust padding (indent + 8) ++ "<xs:element maxOccurs=\"1\" minOccurs=\"" ++
    cardMinStr s.cardinality "act" ++ "\" name=\"act\" type=\"xs:string\"/>\n"
  ++ pyRjust padding (indent + 8) ++
    "<xs:element maxOccurs=\"unbounded\" minOccurs=\"0\" ref=\"s3m:ExceptionalValue\"/>\n"
  ++ pyRjust padding (indent + 8) ++ "<xs:element maxOccurs=\"1\" minOccurs=\"" ++
    cardMinStr s.cardinality "vtb" ++ "\" name=\"vtb\" type=\"xs:dateTime\"/>\n"
  ++ pyRjust padding (indent + 8) ++ "<xs:element maxOccurs=\"1\" minOccurs=\"" ++
    cardMinStr s.cardinality "vte" ++ "\" name=\"vte\" type=\"xs:dateTime\"/>\n"
  ++ pyRjust padding (indent + 8) ++ "<xs:element maxOccurs=\"1\" minOccurs=\"" ++
    cardMinStr s.cardinality "tr" ++ "\" name=\"tr\" type=\"xs:dateTime\"/>\n"
  ++ pyRjust padding (indent + 8) ++ "<xs:element maxOccurs=\"1\" minOccurs=\"" ++
    cardMinStr s.cardinality "modified" ++ "\" name=\"modified\" type=\"xs:dateTime\"/>\n"
  ++ pyRjust padding (indent + 8) ++ "<xs:element maxOccurs=\"1\" minOccurs=\"" ++
    cardMinStr s.cardinality "location" ++ "\" name=\"latitude\" type=\"s3m:lattype\"/>\n"
  ++ pyRjust padding (indent + 8) ++ "<xs:element maxOccurs=\"1\" minOccurs=\"" ++
    cardMinStr s.cardinality "location" ++ "\" name=\"longitude\" type=\"s3m:lontype\"/>\n"

/-- `XdAnyType.getModel` (xdt.py lines 437-493): raises `PublicationError`
when not yet published, then runs `validate()` (whose failure propagates),
then returns the schema stub text. -/
def xd_getModel (s : XdState) : Except PyErr String :=
  if !s.published then
    .error (.publicationError "The model must first be published.")
  else
    match xd_validate s with
    | .error e => .error e
    | .ok _ => .ok (xd_getModel_stub s)

/-- A concretely valid, unpublished sample component used by witnesses. -/
def sampleXd : XdState :=
  { mcuid := "m1", acuid := "a1", label := "Units", published := false,
    adapter := false, docs := "doc",
    definition_url := "https://s3model.com/items",
    pred_obj_list := [], xdtype := "XdStringType",
    cardinality := defaultCardinality,
    act := none, vtb := none, vte := none, tr := none, modified := none,
    latitude := none, longitude := none }

/-- An unpublished component whose `validate()` raises: its
`definition_url` is the empty string, which is not a URL. -/
def invalidXd : XdState :=
  { sampleXd with label := "AA", definition_url := "" }

/- ### XdAdapterType (claim C5)

`XdAdapterType.__init__`: struct.py lines 78-82.  `value` setter:
struct.py lines 98-113. -/

/-- State of an `XdAdapterType` (struct.py lines 78-82): the `_published`
flag inherited from `ItemType`, the wrapped value, the adapter\x27s model id
(`None` until a value is attached) and its label. -/
structure AdapterState where
  published : Bool
  value : Option XdState
  mcuid : Option String
  label : String
  deriving Repr, DecidableEq

/-- `XdAdapterType.__init__` (struct.py lines 78-82). -/
def XdAdapterType_init : AdapterState :=
  { published := false, value := none, mcuid := none, label := "Empty XdAdapter" }

/-- `XdAdapterType.value` setter (struct.py lines 98-113).  When the
adapter is unpublished, the value is published and the slot is empty, the
assignment stores the value with its `adapter` flag set, copies the
value\x27s adapter id `acuid` as the adapter\x27s own id, derives the label and
immediately publishes the adapter.  The two rejection branches: when the
supplied value is unpublished the raised message reads "The model has been
published and cannot be edited."; when the adapter itself is already
published the raised message is built from `v.__str__()` (which may itself
raise the value\x27s validation error) followed by " has not been published
and therefore cannot be wrapped in a XdAdapter.". -/
def adapter_set_value (a : AdapterState) (v : XdState) : StepRes AdapterState :=
  if !a.published then
    if v.published then
      if a.value = none then
        .ok { a with
              value := some {v with adapter := true},
              mcuid := some v.acuid,
              label := "XdAdapter for " ++ v.label,
              published := true }
      else
        .err (.valueError
          "the value must be a XdAnyType subtype. A XdAdapter can only contain one XdType.") a
    else
      .err (.valueError "The model has been published and cannot be edited.") a
  else
    match xd_str v with
    | .ok str =>
        .err (.valueError (str ++
          " has not been published and therefore cannot be wrapped in a XdAdapter.")) a
    | .error e => .err e a

/-- A published, valid sample value to be wrapped by adapters. -/
def samplePublishedXd : XdState := {sampleXd with published := true}

/- ### XdIntervalType schema emission (claim C6)

`XdIntervalType.__init__`: xdt.py lines 560-576.  `getModel`: xdt.py
lines 717-768. -/

/-- The interval base type chosen at construction
(`invlTypes = (int, Decimal, date, time, datetime, float)`). -/
inductive IntervalBase where
  | int | decimal | date | time | datetime | float
  deriving Repr, DecidableEq

/-- The `type_transpose` dict of `getModel` (xdt.py line 734); `date`,
`time` and `datetime` are absent from it (the source would raise
`KeyError`). -/
def typeTranspose : IntervalBase → Option String
  | .int => some "int"
  | .decimal => some "decimal"
  | .float => some "float"
  | _ => none

/-- State of an `XdIntervalType` (xdt.py lines 560-576), on top of the
inherited `XdAnyType` state.  `units_id` holds `self._units_id`. -/
structure IntervalState where
  base : XdState
  lower : Option Int
  upper : Option Int
  lower_included : Bool
  upper_included : Bool
  lower_bounded : Bool
  upper_bounded : Bool
  interval_units : Option (String × String)
  units_id : Option String
  interval_type : IntervalBase
  deriving Repr, DecidableEq

/-- `XdIntervalType.getModel` (xdt.py lines 717-768), with `indent = 6`.
The call delegates to `XdAnyType.getModel` first (published check and
validation); then, when `interval_units` is set, it assigns a FRESH
`cuid()` to `self._units_id` on every invocation (line 746) and emits that
id both in the `interval-units` element declaration and in the trailing
units complexType.  The fresh id produced by the external `cuid()`
generator is passed in as `freshId` (collision-resistant: distinct on
every call).  All raises happen before `_units_id` is touched, so the
state is unchanged on error. -/
def interval_getModel (s : IntervalState) (freshId : String) :
    Except PyErr (String × IntervalState) :=
  let indent : Nat := 6
  let padding : String := pyRjust "" indent
  let li : String := if s.lower_included then "true" else "false"
  let ui : String := if s.upper_included then "true" else "false"
  let lb : String := if s.lower_bounded then "true" else "false"
  let ub : String := if s.upper_bounded then "true" else "false"
  match xd_getModel s.base with
  | .error e => .error e
  | .ok base =>
    match typeTranspose s.interval_type with
    | none => .error (.typeError "KeyError: interval type not in type_transpose")
    | some tt =>
      let uid : Option String := if s.interval_units.isSome then some freshId else none
      let core : String := base
        ++ pyRjust padding (indent + 4) ++
          "<xs:element maxOccurs=\x271\x27 minOccurs=\x270\x27 name=\x27lower\x27 type=\x27xs:" ++
          tt ++ "\x27/>\n"
        ++ pyRjust padding (indent + 4) ++
          "<xs:element maxOccurs=\x271\x27 minOccurs=\x270\x27 name=\x27upper\x27 type=\x27xs:" ++
          tt ++ "\x27/>\n"
        ++ pyRjust padding (indent + 4) ++
          "<xs:element maxOccurs=\x271\x27 minOccurs=\x271\x27 name=\x27lower-included\x27 type=\x27xs:boolean\x27 fixed=\x27" ++
          li ++ "\x27/>\n"
        ++ pyRjust padding (indent + 4) ++
          "<xs:element maxOccurs=\x271\x27 minOccurs=\x271\x27 name=\x27upper-included\x27 type=\x27xs:boolean\x27 fixed=\x27" ++
          ui ++ "\x27/>\n"
        ++ pyRjust padding (indent + 4) ++
          "<xs:element maxOccurs=\x271\x27 minOccurs=\x271\x27 name=\x27lower-bounded\x27 type=\x27xs:boolean\x27 fixed=\x27" ++
          lb ++ "\x27/>\n"
        ++ pyRjust padding (indent + 4) ++
          "<xs:element maxOccurs=\x271\x27 minOccurs=\x271\x27 name=\x27upper-bounded\x27 type=\x27xs:boolean\x27 fixed=\x27" ++
          ub ++ "\x27/>\n"
        ++ (match uid with
            | some u => pyRjust padding (indent + 4) ++
                "<xs:element maxOccurs=\x271\x27 minOccurs=\x271\x27 name=\x27interval-units\x27  type=\x27s3m:mc-" ++
                u ++ "\x27/>\n"
            | none => "")
        ++ pyRjust padding (indent + 4) ++ "</xs:sequence>\n"
        ++ pyRjust padding (indent + 4) ++ "</xs:restriction>\n"
        ++ pyRjust padding (indent + 2) ++ "</xs:complexContent>\n"
        ++ pyRjust padding (indent + 2) ++ "</xs:complexType>\n\n"
      let unitsBlock : String :=
        match uid, s.interval_units with
        | some u, some iu =>
            pyRjust padding (indent + 2) ++ "<xs:complexType name=\x27mc-" ++ u ++ "\x27>\n"
            ++ pyRjust padding (indent + 4) ++ "<xs:complexContent>\n"
            ++ pyRjust padding (indent + 6) ++ "<xs:restriction base=\x27s3m:InvlUnits\x27>\n"
            ++ pyRjust padding (indent + 8) ++ "<xs:sequence>\n"
            ++ pyRjust padding (indent + 8) ++
              "<xs:element maxOccurs=\x271\x27 minOccurs=\x271\x27 name=\x27units-name\x27 type=\x27xs:string\x27 fixed=\x27" ++
              pyStrip iu.1 ++ "\x27/>\n"
            ++ pyRjust padding (indent + 8) ++
              "<xs:element maxOccurs=\x271\x27 minOccurs=\x271\x27 name=\x27units-uri\x27 type=\x27xs:anyURI\x27 fixed=\x27" ++
              pyStrip iu.2 ++ "\x27/>\n"
            ++ pyRjust padding (indent + 8) ++ "</xs:sequence>\n"
            ++ pyRjust padding (indent + 6) ++ "</xs:restriction>\n"
            ++ pyRjust padding (indent + 4) ++ "</xs:complexContent>\n"
            ++ pyRjust padding (indent + 2) ++ "</xs:complexType>\n\n"
        | _, _ => ""
      .ok (core ++ unitsBlock, {s with units_id := uid})

/-- A concrete published interval component carrying `interval_units`. -/
def sampleIntervalUnits : IntervalState :=
  { base := { sampleXd with
              xdtype := "XdIntervalType", label := "Range", published := true },
    lower := none, upper := none,
    lower_included := true, upper_included := true,
    lower_bounded := true, upper_bounded := true,
    interval_units := some ("kg", "https://ucum.org/kg"),
    units_id := none, interval_type := .int }

/-- The same component with no `interval_units`. -/
def sampleIntervalNoUnits : IntervalState :=
  { sampleIntervalUnits with interval_units := none }

/-- Projection of the schema text out of a `getModel` result. -/
def exOut : Except PyErr (String × IntervalState) → Option String
  | .ok (o, _) => some o
  | .error _ => none

/-- Proof-support decomposition of the text `interval_getModel` produces on
`sampleIntervalUnits`: the id-independent prefix, i.e. the base stub and
the six fixed element lines, transcribed with the sample\x27s concrete
interval type and flags. -/
def ivPre : String :=
  xd_getModel_stub sampleIntervalUnits.base
  ++ pyRjust (pyRjust "" 6) 10 ++
    "<xs:element maxOccurs=\x271\x27 minOccurs=\x270\x27 name=\x27lower\x27 type=\x27xs:" ++
    "int" ++ "\x27/>\n"
  ++ pyRjust (pyRjust "" 6) 10 ++
    "<xs:element maxOccurs=\x271\x27 minOccurs=\x270\x27 name=\x27upper\x27 type=\x27xs:" ++
    "int" ++ "\x27/>\n"
  ++ pyRjust (pyRjust "" 6) 10 ++
    "<xs:element maxOccurs=\x271\x27 minOccurs=\x271\x27 name=\x27lower-included\x27 type=\x27xs:boolean\x27 fixed=\x27" ++
    "true" ++ "\x27/>\n"
  ++ pyRjust (pyRjust "" 6) 10 ++
    "<xs:element maxOccurs=\x271\x27 minOccurs=\x271\x27 name=\x27upper-included\x27 type=\x27xs:boolean\x27 fixed=\x27" ++
    "true" ++ "\x27/>\n"
  ++ pyRjust (pyRjust "" 6) 10 ++
    "<xs:element maxOccurs=\x271\x27 minOccurs=\x271\x27 name=\x27lower-bounded\x27 type=\x27xs:boolean\x27 fixed=\x27" ++
    "true" ++ "\x27/>\n"
  ++ pyRjust (pyRjust "" 6) 10 ++
    "<xs:element maxOccurs=\x271\x27 minOccurs=\x271\x27 name=\x27upper-bounded\x27 type=\x27xs:boolean\x27 fixed=\x27" ++
    "true" ++ "\x27/>\n"

/-- The `interval-units` element declaration carrying the fresh id. -/
def ivChunk (id : String) : String :=
  pyRjust (pyRjust "" 6) 10 ++
    "<xs:element maxOccurs=\x271\x27 minOccurs=\x271\x27 name=\x27interval-units\x27  type=\x27s3m:mc-" ++
    id ++ "\x27/>\n"

/-- The trailing units complexType block carrying the fresh id, at the
sample\x27s concrete units pair. -/
def ivUnitsBlock (id : String) : String :=
  pyRjust (pyRjust "" 6) 8 ++ "<xs:complexType name=\x27mc-" ++ id ++ "\x27>\n"
  ++ pyRjust (pyRjust "" 6) 10 ++ "<xs:complexContent>\n"
  ++ pyRjust (pyRjust "" 6) 12 ++ "<xs:restriction base=\x27s3m:InvlUnits\x27>\n"
  ++ pyRjust (pyRjust "" 6) 14 ++ "<xs:sequence>\n"
  ++ pyRjust (pyRjust "" 6) 14 ++
    "<xs:element maxOccurs=\x271\x27 minOccurs=\x271\x27 name=\x27units-name\x27 type=\x27xs:string\x27 fixed=\x27" ++
    pyStrip "kg" ++ "\x27/>\n"
  ++ pyRjust (pyRjust "" 6) 14 ++
    "<xs:element maxOccurs=\x271\x27 minOccurs=\x271\x27 name=\x27units-uri\x27 type=\x27xs:anyURI\x27 fixed=\x27" ++
    pyStrip "https://ucum.org/kg" ++ "\x27/>\n"
  ++ pyRjust (pyRjust "" 6) 14 ++ "</xs:sequence>\n"
  ++ pyRjust (pyRjust "" 6) 12 ++ "</xs:restriction>\n"
  ++ pyRjust (pyRjust "" 6) 10 ++ "</xs:complexContent>\n"
  ++ pyRjust (pyRjust "" 6) 8 ++ "</xs:complexType>\n\n"

/-- The whole text produced for `sampleIntervalUnits` when `cuid()` yields
`id`: prefix, units element declaration, the four closing lines, then the
units block. -/
def ivShape (id : String) : String :=
  ivPre ++ ivChunk id
  ++ pyRjust (pyRjust "" 6) 10 ++ "</xs:sequence>\n"
  ++ pyRjust (pyRjust "" 6) 10 ++ "</xs:restriction>\n"
  ++ pyRjust (pyRjust "" 6) 8 ++ "</xs:complexContent>\n"
  ++ pyRjust (pyRjust "" 6) 8 ++ "</xs:complexType>\n\n"
  ++ ivUnitsBlock id

/-- First `getModel()` call on the units-bearing interval: the external
`cuid()` yields some fresh id, here `"ck1"`. -/
def intervalRun1 : Except PyErr (String × IntervalState) :=
  interval_getModel sampleIntervalUnits "ck1"

/-- Second `getModel()` call on the same, unmodified component (state as
left by the first call); `cuid()` yields a different fresh id, `"ck2"`. -/
def intervalRun2 : Except PyErr (String × IntervalState) :=
  match intervalRun1 with
  | .ok (_, s1) => interval_getModel s1 "ck2"
  | .error e => .error e

/- ### XdStringType constraint facets and example synthesis (claims C7, C8)

`XdStringType.__init__`: xdt.py lines 1316-1333.  `length` setter: lines
1379-1398.  `regex` setter: lines 1408-1422.  `enums` setter: lines
1435-1456.  `default` setter: lines 1465-1475.  `getXMLInstance`: lines
1565-1607. -/

/-- The value shapes accepted by the `length` setter: a Python int (exact
length) or a 2-tuple of optional ints (min/max pair). -/
inductive LengthVal where
  | exact (n : Int)
  | range (lo hi : Option Int)
  deriving Repr, DecidableEq

/-- The `XdStringType` fields the string claims observe (the inherited
`XdAnyType` identity and metadata fields are independent of the facet
logic and are modelled separately above). -/
structure StrState where
  published : Bool
  value : Option String
  language : Option String
  enums : List (String × String)
  regex : Option String
  default : Option String
  length : Option LengthVal
  deriving Repr, DecidableEq

/-- `XdStringType.__init__` facet fields (xdt.py lines 1316-1333): all
facets start unset. -/
def XdStringType_init : StrState :=
  { published := false, value := none, language := none, enums := [],
    regex := none, default := none, length := none }

/-- `XdStringType.length` setter (xdt.py lines 1379-1398).  For a
non-`None` value the mutual-exclusion check against `enums` and `regex`
runs first.  For a tuple containing a `None` member the source\x27s
`isinstance(v[0], (int, None))` call itself raises `TypeError` (`None` is
not a type), so the embedded setter raises `TypeError` there; the coded
message about tuple member types is unreachable for int/None members. -/
def set_length (s : StrState) (v : Option LengthVal) : StepRes StrState :=
  if !s.published then
    match v with
    | none => .ok {s with length := none}
    | some lv =>
      if s.enums.length > 0 || s.regex.isSome then
        .err (.valueError "The elements \x27length\x27, \x27enums\x27 and \x27regex\x27 are mutally exclusive.  Set length and regex to \x27None\x27 or enums to \x27[]\x27.") s
      else
        match lv with
        | .exact n =>
          if n ≥ 1 then .ok {s with length := some lv}
          else .err (.typeError "The length value must be an integer (exact length) or a tuple (min/max lengths).") s
        | .range lo hi =>
          match lo, hi with
          | some a, some b =>
            if a > b then
              .err (.valueError "Minimum length must be smaller or equal to maximum length.") s
            else .ok {s with length := some lv}
          | _, _ =>
            .err (.typeError "isinstance() arg 2 must be a type or tuple of types") s
  else .err (.publicationError "The model has been published and cannot be edited.") s

/-- `XdStringType.regex` setter (xdt.py lines 1408-1422).  `compiles`
stands for the outcome of the external `re.compile(v)` call.  For a
non-`None` string the mutual-exclusion check against `enums` and `length`
runs first. -/
def set_regex (s : StrState) (v : Option String) (compiles : Bool) : StepRes StrState :=
  if !s.published then
    match v with
    | none => .ok {s with regex := none}
    | some str =>
      if s.enums.length > 0 || s.length.isSome then
        .err (.valueError "The elements \x27length\x27, \x27enums\x27 and \x27regex\x27 are mutally exclusive.  Set length and regex to \x27None\x27 or enums to \x27[]\x27.") s
      else if compiles then .ok {s with regex := some str}
      else .err (.valueError "The value is not a valid regular expression.") s
  else .err (.publicationError "The model has been published and cannot be edited.") s

/-- `XdStringType.enums` setter (xdt.py lines 1435-1456).  For `v == []`
the source assigns `_enums = []` BEFORE the mutual-exclusion check, so
that mutation persists into the raise; for non-empty `v` the check runs
before any mutation.  The member type checks are discharged by the
embedding\x27s typing. -/
def set_enums (s : StrState) (v : List (String × String)) : StepRes StrState :=
  if !s.published then
    let s1 := if v = [] then {s with enums := []} else s
    if s1.regex.isSome || s1.length.isSome then
      .err (.valueError "The elements \x27length\x27, enums\x27 and \x27regex\x27 are mutally exclusive. Set length and regex to \x27None\x27 or enums to \x27[]\x27.") s1
    else .ok {s1 with enums := v}
  else .err (.publicationError "The model has been published and cannot be edited.") s

/-- `XdStringType.default` setter (xdt.py lines 1465-1475).  Note the
source assigns `self._length = v` in the `v == None` branch (it clears
`length`, not `default`). -/
def set_default (s : StrState) (v : Option String) : StepRes StrState :=
  if !s.published then
    match v with
    | none => .ok {s with length := none}
    | some str => .ok {s with default := some str}
  else .err (.publicationError "The model has been published and cannot be edited.") s

/-- Python `str * int` repetition (empty for non-positive counts). -/
def pyStrMulChar (c : Char) (n : Int) : String :=
  String.mk (List.replicate n.toNat c)

/-- The example-value synthesis branch of `XdStringType.getXMLInstance`
(xdt.py lines 1570-1591), entered when `self.value` is `None` and
`example=True`.  `enumChoice` models `random.choice` as an index into the
enum list; `regexGen` models the external `exrex.getone(regex)` call
(`none` means it raised, triggering the fallback message).  Branch order
as in the source: non-empty enums (inside which a set default wins),
exact-int length, tuple length, default, regex, generic fallback. -/
def xdstring_example_value (s : StrState) (enumChoice : Nat)
    (regexGen : Option String) : Except PyErr String :=
  if !s.published then
    .error (.publicationError "Cannot create an example unless the model is published.")
  else if s.enums.length > 0 then
    match s.default with
    | some d => .ok d
    | none => .ok (s.enums.getD (enumChoice % s.enums.length) ("", "")).1
  else
    match s.length with
    | some (.exact n) => .ok (pyStrMulChar 'w' n)
    | some (.range lo _) =>
      match lo with
      | some a => .ok (pyStrMulChar 'd' a)
      | none => .error (.typeError "unsupported operand type for str and NoneType")
    | none =>
      match s.default with
      | some d => .ok d
      | none =>
        match s.regex with
        | some _ =>
          match regexGen with
          | some g => .ok g
          | none => .ok "Could not generate a valid example for the regex."
        | none => .ok "Generated Default String"

/-- Number of string constraint facets currently set (enums, regex,
length). -/
def facetCount (s : StrState) : Nat :=
  (if s.enums ≠ [] then 1 else 0) + (if s.regex.isSome then 1 else 0) +
    (if s.length.isSome then 1 else 0)

/-- An unpublished string component with only `regex` set. -/
def strWithRegex : StrState := { XdStringType_init with regex := some "[a-z]" }

/-- A published string component with no value, whose `default` AND
`length` facets are both set (the source permits this: `default` is not
part of the mutual-exclusion trio). -/
def strDefaultAndLength : StrState :=
  { XdStringType_init with
    published := true, default := some "hi", length := some (.exact 3) }

/-- A published string component with a non-empty enum list and a set
default. -/
def strEnumDefault : StrState :=
  { XdStringType_init with
    published := true
    default := some "hi"
    enums := [("kg", "https://ucum.org/kg")] }

/- ### mag_constrained at construction (claim C9)

`XdCountType.__init__`: xdt.py lines 2414-2431.  `XdQuantityType.__init__`:
lines 2672-2689.  `XdFloatType.__init__`: lines 2970-2985.  The bound
setters (`min_inclusive` etc.) only assign their own field; `grep` over the
source shows `_mag_constrained` is assigned nowhere outside the three
`__init__` lines 2431, 2689 and 2985. -/

/-- Python truthiness of an optional numeric field (`None` and zero are
falsy). -/
def pyTruthyInt : Option Int → Bool
  | none => false
  | some n => n ≠ 0

/-- Python `all(...)` over already-evaluated truthiness values. -/
def pyAll (l : List Bool) : Bool := l.all id

/-- Numeric-bound state shared by the embeddings of `XdCountType`,
`XdQuantityType` and `XdFloatType` (their `Decimal`/`float` bound values
are carried as integers here; only presence matters to the flag).
`fraction_digits` exists only on the Quantity variant and `total_digits`
only on Count and Quantity; the unused fields stay `none` on the others. -/
structure MagState where
  published : Bool
  value : Option Int
  min_inclusive : Option Int
  max_inclusive : Option Int
  min_exclusive : Option Int
  max_exclusive : Option Int
  total_digits : Option Int
  fraction_digits : Option Int
  mag_constrained : Bool
  deriving Repr, DecidableEq

/-- `XdCountType.__init__` (xdt.py lines 2414-2431): the bound fields are
all assigned `None`, and then `_mag_constrained` is computed as
`not all([min_inclusive, max_inclusive, min_exclusive, max_exclusive,
total_digits])` over those still-`None` fields. -/
def XdCountType_init : MagState :=
  let min_inclusive : Option Int := none
  let max_inclusive : Option Int := none
  let min_exclusive : Option Int := none
  let max_exclusive : Option Int := none
  let total_digits : Option Int := none
  { published := false, value := none,
    min_inclusive := min_inclusive, max_inclusive := max_inclusive,
    min_exclusive := min_exclusive, max_exclusive := max_exclusive,
    total_digits := total_digits, fraction_digits := none,
    mag_constrained := !(pyAll [pyTruthyInt min_inclusive,
      pyTruthyInt max_inclusive, pyTruthyInt min_exclusive,
      pyTruthyInt max_exclusive, pyTruthyInt total_digits]) }

/-- `XdQuantityType.__init__` (xdt.py lines 2672-2689): as for Count, with
`fraction_digits` added to the `all(...)` list. -/
def XdQuantityType_init : MagState :=
  let min_inclusive : Option Int := none
  let max_inclusive : Option Int := none
  let min_exclusive : Option Int := none
  let max_exclusive : Option Int := none
  let total_digits : Option Int := none
  let fraction_digits : Option Int := none
  { published := false, value := none,
    min_inclusive := min_inclusive, max_inclusive := max_inclusive,
    min_exclusive := min_exclusive, max_exclusive := max_exclusive,
    total_digits := total_digits, fraction_digits := fraction_digits,
    mag_constrained := !(pyAll [pyTruthyInt min_inclusive,
      pyTruthyInt max_inclusive, pyTruthyInt min_exclusive,
      pyTruthyInt max_exclusive, pyTruthyInt total_digits,
      pyTruthyInt fraction_digits]) }

/-- `XdFloatType.__init__` (xdt.py lines 2970-2985): the four bound fields
only. -/
def XdFloatType_init : MagState :=
  let min_inclusive : Option Int := none
  let max_inclusive : Option Int := none
  let min_exclusive : Option Int := none
  let max_exclusive : Option Int := none
  { published := false, value := none,
    min_inclusive := min_inclusive, max_inclusive := max_inclusive,
    min_exclusive := min_exclusive, max_exclusive := max_exclusive,
    total_digits := none, fraction_digits := none,
    mag_constrained := !(pyAll [pyTruthyInt min_inclusive,
      pyTruthyInt max_inclusive, pyTruthyInt min_exclusive,
      pyTruthyInt max_exclusive]) }

/-- The writes a modeler can perform on a Count/Quantity/Float component
after construction: the numeric bound facet setters (xdt.py lines
2487-2563 for Count and the identical patterns on Quantity and Float),
plus publishing.  (The instance `value` setter is an instance-field write
whose body likewise never mentions `_mag_constrained`.) -/
inductive MagOp where
  | setMinInclusive (v : Option Int)
  | setMaxInclusive (v : Option Int)
  | setMinExclusive (v : Option Int)
  | setMaxExclusive (v : Option Int)
  | setTotalDigits (v : Option Int)
  | setFractionDigits (v : Option Int)
  | setPublished (v : Bool)
  deriving Repr, DecidableEq

/-- Dispatch of one write: each bound setter assigns only its own field
when unpublished and raises `PublicationError` otherwise (xdt.py lines
2487-2563); `published` follows the setter embedded above.  None of them
mentions `_mag_constrained`. -/
def magApply (s : MagState) (op : MagOp) : StepRes MagState :=
  match op with
  | .setMinInclusive v =>
    if !s.published then .ok {s with min_inclusive := v}
    else .err (.publicationError "The model has been published and cannot be edited.") s
  | .setMaxInclusive v =>
    if !s.published then .ok {s with max_inclusive := v}
    else .err (.publicationError "The model has been published and cannot be edited.") s
  | .setMinExclusive v =>
    if !s.published then .ok {s with min_exclusive := v}
    else .err (.publicationError "The model has been published and cannot be edited.") s
  | .setMaxExclusive v =>
    if !s.published then .ok {s with max_exclusive := v}
    else .err (.publicationError "The model has been published and cannot be edited.") s
  | .setTotalDigits v =>
    if !s.published then .ok {s with total_digits := v}
    else .err (.publicationError "The model has been published and cannot be edited.") s
  | .setFractionDigits v =>
    if !s.published then .ok {s with fraction_digits := v}
    else .err (.publicationError "The model has been published and cannot be edited.") s
  | .setPublished v =>
    if s.published = false then .ok {s with published := v}
    else .err (.valueError "the published value cannot be changed once published.") s

/-- The state after one write, whether it succeeded or raised. -/
def magStep (s : MagState) (op : MagOp) : MagState := (magApply s op).state

/- ### XdQuantifiedType error/accuracy setters (claim C10)

`XdQuantifiedType.error` setter: xdt.py lines 2330-2338.  `accuracy`
setter: lines 2348-2356. -/

/-- The `XdQuantifiedType` fields the accuracy claim observes. -/
structure QuantState where
  published : Bool
  error : Option Int
  accuracy : Option Int
  deriving Repr, DecidableEq

/-- `XdQuantifiedType.error` setter (xdt.py lines 2330-2338): on a
published component an int 0-100 is stored in `_error`. -/
def set_error (s : QuantState) (v : Int) : StepRes QuantState :=
  if s.published then
    if 0 ≤ v ∧ v ≤ 100 then .ok {s with error := some v}
    else .err (.typeError "The error value must be an integer 0 - 100.") s
  else .err (.publicationError "The model has not been published.") s

/-- `XdQuantifiedType.accuracy` setter (xdt.py lines 2348-2356): on a
published component an int 0-100 is assigned to `self._error` (line 2352)
— not to `self._accuracy`. -/
def set_accuracy (s : QuantState) (v : Int) : StepRes QuantState :=
  if s.published then
    if 0 ≤ v ∧ v ≤ 100 then .ok {s with error := some v}
    else .err (.typeError "The accuracy value must be an integer 0 - 100.") s
  else .err (.publicationError "The model has not been published.") s

/- ### XdRatioType denominator bound setters (claim C1)

`XdRatioType.num_min_inclusive` setter: xdt.py lines 3285-3295.
`den_min_inclusive` setter: lines 3378-3385.  `den_max_inclusive`: lines
3394-3401.  `den_min_exclusive`: lines 3410-3417.  `den_max_exclusive`:
lines 3426-3433. -/

/-- The `XdRatioType` fields the lifecycle-gate claim observes (Decimal
bound values carried as integers). -/
structure RatioState where
  published : Bool
  num_min_inclusive : Option Int
  den_min_inclusive : Option Int
  den_max_inclusive : Option Int
  den_min_exclusive : Option Int
  den_max_exclusive : Option Int
  deriving Repr, DecidableEq

/-- `XdRatioType.num_min_inclusive` setter (xdt.py lines 3285-3295):
gated on not-published like every other definitional setter. -/
def set_num_min_inclusive (s : RatioState) (v : Option Int) : StepRes RatioState :=
  if !s.published then .ok {s with num_min_inclusive := v}
  else .err (.publicationError "The model has been published and cannot be edited.") s

/-- `XdRatioType.den_min_inclusive` setter (xdt.py lines 3378-3385): the
body contains NO publication check at all — it converts and stores the
value unconditionally (contrast with `set_num_min_inclusive`). -/
def set_den_min_inclusive (s : RatioState) (v : Option Int) : StepRes RatioState :=
  .ok {s with den_min_inclusive := v}

/-- `XdRatioType.den_max_inclusive` setter (xdt.py lines 3394-3401): no
publication check. -/
def set_den_max_inclusive (s : RatioState) (v : Option Int) : StepRes RatioState :=
  .ok {s with den_max_inclusive := v}

/-- `XdRatioType.den_min_exclusive` setter (xdt.py lines 3410-3417): no
publication check. -/
def set_den_min_exclusive (s : RatioState) (v : Option Int) : StepRes RatioState :=
  .ok {s with den_min_exclusive := v}

/-- `XdRatioType.den_max_exclusive` setter (xdt.py lines 3426-3433): no
publication check. -/
def set_den_max_exclusive (s : RatioState) (v : Option Int) : StepRes RatioState :=
  .ok {s with den_max_exclusive := v}

/-- A ratio component already in the Published state. -/
def publishedRatio : RatioState :=
  { published := true, num_min_inclusive := none, den_min_inclusive := none,
    den_max_inclusive := none, den_min_exclusive := none,
    den_max_exclusive := none }


/-- C4 — Cardinality allow-list enforcement: on an unpublished component,
`setCardinality(f, [lo, hi])` succeeds if and only if `f` is a key of the
static allow-table, `lo` and `hi` lie within that field\x27s permitted
`(min, max)` sub-ranges, and `lo <= hi`; on success the stored entry for `f`
is fully replaced by the converted pair, and in every failing case an error
is raised with the stored cardinality map unchanged. -/
theorem cardinality_allowlist_enforced (m : CardMap) (key : String)
    (lo hi : Option Int) :
    match set_cardinality false m key lo hi with
    | .ok m' => specCardinalityAllowed key lo hi ∧
        m' = dictSet m key (toBound lo, toBound hi)
    | .err _ m' => ¬ specCardinalityAllowed key lo hi ∧ m' = m := by
  unfold set_cardinality valid_cardinality specCardinalityAllowed
  cases hr : cardRules key with
  | none =>
    cases lo <;> cases hi <;>
      simp [minGtMax, toBound, CardBound.ble, CardBound.blt, hr] <;>
      split_ifs <;> simp
  | some r =>
    obtain ⟨ml, mu, xl, xu⟩ := r
    cases lo <;> cases hi <;> cases xu <;>
      simp [minGtMax, toBound, CardBound.ble, CardBound.blt, hr,
        decide_eq_true_eq] <;>
      split_ifs <;> simp_all <;> omega

/-- C3 — Publish monotonicity: from any unpublished component, the first
assignment `published = True` succeeds and only flips the flag; a second
assignment raises a `ValueError` and the error result carries the component
state unchanged from just after the first publish.  The `ItemType`
(struct.py) setter, whose only observable field is the flag itself, raises
identically on the second assignment. -/
theorem publish_monotonicity (s : XdState) (p : Bool) (h : s.published = false) :
    set_published s true = .ok {s with published := true} ∧
    set_published {s with published := true} true =
      .err (.valueError "the published value cannot be changed once published.")
        {s with published := true} ∧
    item_set_published true p =
      .err (.valueError "the published value cannot be changed once published.") true := by
  refine ⟨?_, ?_, ?_⟩ <;> simp [set_published, item_set_published, h]

/-- Witness for C3 at a concrete component. -/
theorem publish_monotonicity_witness :
    sampleXd.published = false ∧
    set_published {sampleXd with published := true} true =
      .err (.valueError "the published value cannot be changed once published.")
        {sampleXd with published := true} :=
  ⟨rfl, (publish_monotonicity sampleXd true rfl).2.1⟩

/-- C2 counterexample: a concrete component that fails `validate()` (empty
`definition_url`) nevertheless becomes Published by assigning
`published = True` — the `published` setter (xdt.py lines 180-188) never
invokes `validate()`, contradicting the claim that a component failing
`validate()` can never become Published. -/
theorem publish_without_validation_cex :
    xd_validate invalidXd = .error (.validationError
      "XdStringType : AA - failed validation: definition_url is invalid\n") ∧
    set_published invalidXd true = .ok {invalidXd with published := true} ∧
    ({invalidXd with published := true}).published = true := by
  refine ⟨by rfl, by rfl, rfl⟩

/-- C2 (amended) — The `published = True` assignment from the Unpublished
state flips the immutable flag without running `validate()` (so even an
invalid component can become Published), while `getModel()` does invoke
`validate()` after its own published check: a validation error propagates
out of `getModel()`, and `getModel()` can only return schema text when the
component is published and `validate()` succeeded. -/
theorem publish_skips_validate_getModel_validates (s : XdState)
    (h : s.published = false) :
    set_published s true = .ok {s with published := true} ∧
    (∀ (t : XdState) (e : PyErr), t.published = true →
      xd_validate t = .error e → xd_getModel t = .error e) ∧
    (∀ (t : XdState) (out : String), xd_getModel t = .ok out →
      t.published = true ∧ ∃ b, xd_validate t = .ok b) := by
  refine ⟨by simp [set_published, h], ?_, ?_⟩
  · intro t e ht hv
    simp [xd_getModel, ht, hv]
  · intro t out hg
    unfold xd_getModel at hg
    by_cases ht : t.published
    · refine ⟨ht, ?_⟩
      cases hv : xd_validate t with
      | error e => simp [ht, hv] at hg
      | ok b => exact ⟨b, rfl⟩
    · simp [ht] at hg

/-- Witness for C2 at a concrete component. -/
theorem publish_skips_validate_witness :
    sampleXd.published = false ∧
    set_published sampleXd true = .ok {sampleXd with published := true} :=
  ⟨rfl, (publish_skips_validate_getModel_validates sampleXd rfl).1⟩

/-- C5 counterexample: the two rejection messages of the adapter `value`
setter are attached to the wrong branches.  For a concrete adapter that is
already published and a concrete value that IS published and valid, the
raised message asserts the value "has not been published"; and for a fresh
unpublished adapter handed a concrete unpublished value, the raised
message is "The model has been published and cannot be edited." — so the
descriptions do not distinguish the adapter-already-published case from
the value-not-published case as claimed, they are swapped. -/
theorem adapter_messages_swapped_cex :
    samplePublishedXd.published = true ∧
    adapter_set_value {XdAdapterType_init with published := true} samplePublishedXd =
      .err (.valueError
        ("XdStringType : Units, ID: m1 Published: True" ++
          " has not been published and therefore cannot be wrapped in a XdAdapter."))
        {XdAdapterType_init with published := true} ∧
    sampleXd.published = false ∧
    adapter_set_value XdAdapterType_init sampleXd =
      .err (.valueError "The model has been published and cannot be edited.")
        XdAdapterType_init := by
  refine ⟨rfl, by rfl, rfl, by rfl⟩

/-- C5 (amended) — Adapter identity transfer: for any unpublished Adapter
with an empty slot and any Published value, the assignment succeeds, the
adapter\x27s id becomes the value\x27s adapter id `acuid`, its label is derived
from the value\x27s label, and the adapter is immediately Published with no
separate publish call; an assignment is accepted only when the adapter is
unpublished and the value is Published.  The two rejection branches raise
distinct messages, but each message describes the opposite case: the
value-not-published branch raises "The model has been published and cannot
be edited." and the adapter-already-published branch raises a message
asserting the value has not been published. -/
theorem adapter_identity_transfer (a : AdapterState) (v : XdState)
    (ha : a.published = false) (hs : a.value = none) (hv : v.published = true) :
    adapter_set_value a v =
      .ok { a with
            value := some {v with adapter := true},
            mcuid := some v.acuid,
            label := "XdAdapter for " ++ v.label,
            published := true } ∧
    (∀ (a' : AdapterState) (v' : XdState) (r : AdapterState),
      adapter_set_value a' v' = .ok r →
        a'.published = false ∧ v'.published = true ∧ r.published = true ∧
        r.mcuid = some v'.acuid) ∧
    (∀ (a' : AdapterState) (v' : XdState), a'.published = false →
      v'.published = false →
        adapter_set_value a' v' =
          .err (.valueError "The model has been published and cannot be edited.") a') ∧
    (∀ (a' : AdapterState) (v' : XdState) (str : String), a'.published = true →
      xd_str v' = .ok str →
        adapter_set_value a' v' =
          .err (.valueError (str ++
            " has not been published and therefore cannot be wrapped in a XdAdapter.")) a') := by
  refine ⟨by simp [adapter_set_value, ha, hs, hv], ?_, ?_, ?_⟩
  · intro a' v' r hr
    unfold adapter_set_value at hr
    by_cases hpa : a'.published
    · simp [hpa] at hr
      cases hx : xd_str v' <;> simp [hx] at hr
    · by_cases hpv : v'.published
      · by_cases hval : a'.value = none
        · simp [hpa, hpv, hval] at hr
          subst hr
          exact ⟨by simp [hpa], hpv, rfl, rfl⟩
        · simp [hpa, hpv, hval] at hr
      · simp [hpa, hpv] at hr
  · intro a' v' hpa hpv
    simp [adapter_set_value, hpa, hpv]
  · intro a' v' str hpa hstr
    simp [adapter_set_value, hpa, hstr]

/-- Witness for C5 at a concrete adapter and value. -/
theorem adapter_identity_transfer_witness :
    XdAdapterType_init.published = false ∧
    adapter_set_value XdAdapterType_init samplePublishedXd =
      .ok { XdAdapterType_init with
            value := some {samplePublishedXd with adapter := true},
            mcuid := some samplePublishedXd.acuid,
            label := "XdAdapter for " ++ samplePublishedXd.label,
            published := true } :=
  ⟨rfl, (adapter_identity_transfer XdAdapterType_init samplePublishedXd rfl rfl rfl).1⟩

set_option maxRecDepth 100000 in
/-- C6 — Export idempotence fails on the code: for the concrete published
interval component with `interval_units` set, two successive `getModel()`
calls both succeed but return different text, because xdt.py line 746
assigns a freshly generated `cuid()` to the emitted units type id on every
call.  On the same component without `interval_units`, the two calls do
return byte-identical output, isolating the fresh-identifier generation as
the only source of divergence. -/
theorem interval_units_fresh_id_breaks_idempotence :
    (exOut intervalRun1).isSome = true ∧
    (exOut intervalRun2).isSome = true ∧
    exOut intervalRun1 ≠ exOut intervalRun2 ∧
    exOut (interval_getModel sampleIntervalNoUnits "ck1") =
      exOut (interval_getModel sampleIntervalNoUnits "ck2") := by
  have e1 : exOut intervalRun1 = some (ivShape "ck1") := rfl
  have e2 : exOut intervalRun2 = some (ivShape "ck2") := rfl
  refine ⟨by rw [e1]; rfl, by rw [e2]; rfl, ?_, by rfl⟩
  intro h
  rw [e1, e2] at h
  have hd : (ivShape "ck1").data = (ivShape "ck2").data :=
    congrArg String.data (Option.some.inj h)
  simp only [ivShape, ivChunk, ivUnitsBlock, String.data_append,
    List.append_assoc, List.append_cancel_left_eq] at hd
  have hck : "ck1".data = "ck2".data :=
    (List.append_inj hd (by decide)).1
  exact absurd hck (by decide)

/-- C7 — String facet mutual exclusivity: on an unpublished
`XdStringType`, for every ordered pair among {length, regex, enums},
setting one facet while another is already set raises a `ValueError` and
leaves the stored facets unchanged (the error result carries the incoming
state).  Consequently, each of the four facet setters preserves "at most
one of the three facets is set", so at most one is ever set. -/
theorem string_facets_mutually_exclusive (s : StrState) (hp : s.published = false)
    (lv : LengthVal) (rx : String) (cpl : Bool)
    (es : List (String × String)) (hes : es ≠ []) :
    (s.regex.isSome = true → set_enums s es =
      .err (.valueError "The elements \x27length\x27, enums\x27 and \x27regex\x27 are mutally exclusive. Set length and regex to \x27None\x27 or enums to \x27[]\x27.") s) ∧
    (s.length.isSome = true → set_enums s es =
      .err (.valueError "The elements \x27length\x27, enums\x27 and \x27regex\x27 are mutally exclusive. Set length and regex to \x27None\x27 or enums to \x27[]\x27.") s) ∧
    (s.enums ≠ [] → set_length s (some lv) =
      .err (.valueError "The elements \x27length\x27, \x27enums\x27 and \x27regex\x27 are mutally exclusive.  Set length and regex to \x27None\x27 or enums to \x27[]\x27.") s) ∧
    (s.regex.isSome = true → set_length s (some lv) =
      .err (.valueError "The elements \x27length\x27, \x27enums\x27 and \x27regex\x27 are mutally exclusive.  Set length and regex to \x27None\x27 or enums to \x27[]\x27.") s) ∧
    (s.enums ≠ [] → set_regex s (some rx) cpl =
      .err (.valueError "The elements \x27length\x27, \x27enums\x27 and \x27regex\x27 are mutally exclusive.  Set length and regex to \x27None\x27 or enums to \x27[]\x27.") s) ∧
    (s.length.isSome = true → set_regex s (some rx) cpl =
      .err (.valueError "The elements \x27length\x27, \x27enums\x27 and \x27regex\x27 are mutally exclusive.  Set length and regex to \x27None\x27 or enums to \x27[]\x27.") s) ∧
    (∀ (v : Option LengthVal) (t : StrState), facetCount s ≤ 1 →
      set_length s v = .ok t → facetCount t ≤ 1) ∧
    (∀ (v : Option String) (c : Bool) (t : StrState), facetCount s ≤ 1 →
      set_regex s v c = .ok t → facetCount t ≤ 1) ∧
    (∀ (v : List (String × String)) (t : StrState), facetCount s ≤ 1 →
      set_enums s v = .ok t → facetCount t ≤ 1) ∧
    (∀ (v : Option String) (t : StrState), facetCount s ≤ 1 →
      set_default s v = .ok t → facetCount t ≤ 1) := by
  refine ⟨?_, ?_, ?_, ?_, ?_, ?_, ?_, ?_, ?_, ?_⟩
  · intro hr
    simp [set_enums, hp, hes, hr]
  · intro hl
    simp [set_enums, hp, hes, hl]
  · intro he
    have : s.enums.length > 0 := List.length_pos.mpr he
    simp [set_length, hp, this]
  · intro hr
    by_cases he : s.enums.length > 0 <;> simp [set_length, hp, he, hr]
  · intro he
    have : s.enums.length > 0 := List.length_pos.mpr he
    simp [set_regex, hp, this]
  · intro hl
    by_cases he : s.enums.length > 0 <;> simp [set_regex, hp, he, hl]
  · intro v t hc hok
    unfold set_length at hok
    rw [hp] at hok
    simp only [Bool.not_false, if_true] at hok
    repeat' split at hok
    all_goals first
      | (injection hok with h
         subst h
         unfold facetCount at hc ⊢
         split_ifs at hc ⊢ <;> simp_all [List.length_eq_zero, Option.isSome_none])
      | injection hok
  · intro v c t hc hok
    unfold set_regex at hok
    rw [hp] at hok
    simp only [Bool.not_false, if_true] at hok
    repeat' split at hok
    all_goals first
      | (injection hok with h
         subst h
         unfold facetCount at hc ⊢
         split_ifs at hc ⊢ <;> simp_all [List.length_eq_zero, Option.isSome_none])
      | injection hok
  · intro v t hc hok
    unfold set_enums at hok
    rw [hp] at hok
    simp only [Bool.not_false, if_true] at hok
    repeat' split at hok
    all_goals first
      | (injection hok with h
         subst h
         unfold facetCount at hc ⊢
         split_ifs at hc ⊢ <;> simp_all [List.length_eq_zero, Option.isSome_none])
      | injection hok
  · intro v t hc hok
    unfold set_default at hok
    rw [hp] at hok
    simp only [Bool.not_false, if_true] at hok
    repeat' split at hok
    all_goals
      (injection hok with h
       subst h
       unfold facetCount at hc ⊢
       split_ifs at hc ⊢ <;> simp_all [List.length_eq_zero, Option.isSome_none])

/-- Witness for C7 at a concrete component: with `regex` already set,
assigning a non-empty enum list raises and the state is unchanged. -/
theorem string_facets_witness :
    strWithRegex.published = false ∧ strWithRegex.regex.isSome = true ∧
    set_enums strWithRegex [("kg", "https://ucum.org/kg")] =
      .err (.valueError "The elements \x27length\x27, enums\x27 and \x27regex\x27 are mutally exclusive. Set length and regex to \x27None\x27 or enums to \x27[]\x27.") strWithRegex :=
  ⟨rfl, rfl,
    (string_facets_mutually_exclusive strWithRegex rfl (.exact 1) "x" true
      [("kg", "https://ucum.org/kg")] (by simp)).1 rfl⟩

/-- C8 counterexample: on a published string component with
`default = "hi"` and `length = 3` (and no enums), the synthesized example
value is the length-fit filler `"www"`, not the default — the source
checks the length facet before the default (xdt.py lines 1579-1584), so
the claimed priority "default first" does not hold. -/
theorem string_example_priority_cex :
    xdstring_example_value strDefaultAndLength 0 none = .ok "www" ∧
    strDefaultAndLength.default = some "hi" ∧ ("www" : String) ≠ "hi" :=
  ⟨rfl, rfl, by decide⟩

/-- C8 (amended) — Example synthesis priority of
`XdStringType.getXMLInstance(example=True)` with no value set: when the
enumeration list is non-empty, the default value is preferred and
otherwise an enumeration member is chosen; with no enumerations, a filler
fitted to the length constraint comes next (exact length: `\x27w\x27 * n`;
range: `\x27d\x27 * min`), then the default value, then a string generated
from the regex (with a fixed apology string when generation fails), and
finally a fixed default string. -/
theorem string_example_priority (s : StrState) (hp : s.published = true)
    (ec : Nat) (rg : Option String) :
    (∀ d, s.default = some d → s.enums ≠ [] →
      xdstring_example_value s ec rg = .ok d) ∧
    (s.default = none → s.enums ≠ [] →
      xdstring_example_value s ec rg = .ok (s.enums.getD (ec % s.enums.length) ("", "")).1) ∧
    (∀ n, s.enums = [] → s.length = some (.exact n) →
      xdstring_example_value s ec rg = .ok (pyStrMulChar 'w' n)) ∧
    (∀ a hi, s.enums = [] → s.length = some (.range (some a) hi) →
      xdstring_example_value s ec rg = .ok (pyStrMulChar 'd' a)) ∧
    (∀ d, s.enums = [] → s.length = none → s.default = some d →
      xdstring_example_value s ec rg = .ok d) ∧
    (∀ r g, s.enums = [] → s.length = none → s.default = none →
      s.regex = some r → rg = some g →
      xdstring_example_value s ec rg = .ok g) ∧
    (∀ r, s.enums = [] → s.length = none → s.default = none →
      s.regex = some r → rg = none →
      xdstring_example_value s ec rg =
        .ok "Could not generate a valid example for the regex.") ∧
    (s.enums = [] → s.length = none → s.default = none → s.regex = none →
      xdstring_example_value s ec rg = .ok "Generated Default String") := by
  refine ⟨?_, ?_, ?_, ?_, ?_, ?_, ?_, ?_⟩
  · intro d hd he
    have : s.enums.length > 0 := List.length_pos.mpr he
    simp [xdstring_example_value, hp, hd, this]
  · intro hd he
    have : s.enums.length > 0 := List.length_pos.mpr he
    simp [xdstring_example_value, hp, hd, this]
  · intro n he hl
    simp [xdstring_example_value, hp, he, hl]
  · intro a hi he hl
    simp [xdstring_example_value, hp, he, hl]
  · intro d he hl hd
    simp [xdstring_example_value, hp, he, hl, hd]
  · intro r g he hl hd hr hg
    simp [xdstring_example_value, hp, he, hl, hd, hr, hg]
  · intro r he hl hd hr hg
    simp [xdstring_example_value, hp, he, hl, hd, hr, hg]
  · intro he hl hd hr
    simp [xdstring_example_value, hp, he, hl, hd, hr]

/-- Witness for C8 at a concrete component: with a non-empty enum list and
a set default, the default wins. -/
theorem string_example_priority_witness :
    strEnumDefault.published = true ∧
    xdstring_example_value strEnumDefault 0 none = .ok "hi" :=
  ⟨rfl, (string_example_priority strEnumDefault rfl 0 none).1 "hi" rfl
    (by simp [strEnumDefault, XdStringType_init])⟩

/-- C9 — `mag_constrained` is computed exactly once at construction, from
bound fields that are all still `None` (so `all([...])` is `False` and the
flag is `True`), and no later operation recomputes it: after any sequence
of bound-facet writes and publishing, the flag of a Count, Quantity or
Float component is still `True`. -/
theorem mag_constrained_always_true :
    XdCountType_init.mag_constrained = true ∧
    XdQuantityType_init.mag_constrained = true ∧
    XdFloatType_init.mag_constrained = true ∧
    (∀ (s : MagState) (op : MagOp),
      (magStep s op).mag_constrained = s.mag_constrained) ∧
    (∀ ops : List MagOp,
      (ops.foldl magStep XdCountType_init).mag_constrained = true ∧
      (ops.foldl magStep XdQuantityType_init).mag_constrained = true ∧
      (ops.foldl magStep XdFloatType_init).mag_constrained = true) := by
  have hstep : ∀ (s : MagState) (op : MagOp),
      (magStep s op).mag_constrained = s.mag_constrained := by
    intro s op
    cases op <;> simp [magStep, magApply, StepRes.state] <;> split_ifs <;> rfl
  have hfold : ∀ (ops : List MagOp) (s : MagState),
      (ops.foldl magStep s).mag_constrained = s.mag_constrained := by
    intro ops
    induction ops with
    | nil => intro s; rfl
    | cons op rest ih => intro s; rw [List.foldl_cons, ih, hstep]
  refine ⟨rfl, rfl, rfl, hstep, fun ops => ⟨?_, ?_, ?_⟩⟩ <;> rw [hfold] <;> rfl

/-- C10 — Frame effect of the accuracy setter: on a published quantified
component, a successful assignment of an integer 0-100 to `accuracy`
stores the value in the `error` field and leaves the `accuracy` field
unchanged; moreover no invocation of the accuracy setter, successful or
not, ever changes the `accuracy` field, so `accuracy` can never be
observed as set through its own setter while `error` is silently
overwritten. -/
theorem accuracy_setter_writes_error (s : QuantState) (v : Int)
    (hp : s.published = true) (h0 : 0 ≤ v) (h1 : v ≤ 100) :
    set_accuracy s v = .ok {s with error := some v} ∧
    ({s with error := some v}).accuracy = s.accuracy ∧
    (∀ (t : QuantState) (w : Int), (set_accuracy t w).state.accuracy = t.accuracy) := by
  refine ⟨by simp [set_accuracy, hp, h0, h1], rfl, ?_⟩
  intro t w
  unfold set_accuracy
  split_ifs <;> rfl

/-- Witness for C10 at a concrete component: accuracy 50 lands in `error`,
`accuracy` stays `None`. -/
theorem accuracy_setter_writes_error_witness :
    set_accuracy { published := true, error := none, accuracy := none } 50 =
      .ok { published := true, error := some 50, accuracy := none } ∧
    ({ published := true, error := some 50, accuracy := none } : QuantState).accuracy = none :=
  ⟨((accuracy_setter_writes_error
      { published := true, error := none, accuracy := none } 50 rfl
      (by decide) (by decide)).1), rfl⟩

/-- C1 — evaluation at the failing input: on a Published `XdRatioType`,
the definitional denominator bound facet setters succeed and mutate the
model (no gate in xdt.py lines 3378-3433), while the sibling
`num_min_inclusive` setter and the base `docs` setter raise
`PublicationError` as the dual-gate demands, and the instance-field `act`
setter raises `PublicationError` on an Unpublished component.  The
denominator setters therefore violate the claimed "definitional setter
succeeds iff Unpublished" equivalence. -/
theorem den_bound_setters_skip_publication_gate :
    publishedRatio.published = true ∧
    set_den_min_inclusive publishedRatio (some 1) =
      .ok {publishedRatio with den_min_inclusive := some 1} ∧
    set_den_max_inclusive publishedRatio (some 10) =
      .ok {publishedRatio with den_max_inclusive := some 10} ∧
    set_den_min_exclusive publishedRatio (some 0) =
      .ok {publishedRatio with den_min_exclusive := some 0} ∧
    set_den_max_exclusive publishedRatio (some 11) =
      .ok {publishedRatio with den_max_exclusive := some 11} ∧
    set_num_min_inclusive publishedRatio (some 1) =
      .err (.publicationError "The model has been published and cannot be edited.")
        publishedRatio ∧
    set_docs {sampleXd with published := true} "text" =
      .err (.publicationError "The model has been published and cannot be edited.")
        {sampleXd with published := true} ∧
    set_act ["public"] sampleXd "public" =
      .err (.publicationError "The model has not been published.") sampleXd :=
  ⟨rfl, rfl, rfl, rfl, rfl, rfl, rfl, rfl⟩

end S3M
